import Mathlib

/-!
Verification of the ServerKit HTTP server core
(src/ext/common/ServerKit/HttpServer.h).

This file is a shallow embedding of the request-lifecycle, body-ingest,
response-emission and freelist logic of the HttpServer template class.
Pure C++ member functions become Lean functions over explicit state
records; side effects on the event loop, the channels and the parsers
are recorded as explicit event traces.  Machine integers (uint64 body
counters) are modelled as Nat with explicit reduction modulo 2^64 where
the C++ arithmetic can wrap.

Collaborating code that is not part of the repository snapshot (the
HttpRequest class with its small inline predicates, the HeaderTable
container, the status-code table and a few extern constants) is
modelled from the specification; every such definition carries a doc
comment starting with "Modelled from the spec:".
-/

namespace ServerKit

/-- HttpState enumeration of a request, from the data model (spec section 3)
and the states dispatched on throughout HttpServer.h. -/
inductive HttpState
  | PARSING_HEADERS
  | PARSING_BODY
  | PARSING_CHUNKED_BODY
  | UPGRADED
  | COMPLETE
  | FLUSHING_OUTPUT
  | WAITING_FOR_REFERENCES
  | IN_FREELIST
  | ERROR
  deriving DecidableEq, Repr

/-- Request body type enumeration, names as in the source (RBT prefix kept). -/
inductive BodyType
  | RBT_NO_BODY
  | RBT_CONTENT_LENGTH
  | RBT_CHUNKED
  | RBT_UPGRADE
  deriving DecidableEq, Repr

/-- HTTP method enumeration; only the constructors the core dispatches on
are needed (HTTP_HEAD is tested in writeSimpleResponse, HTTP_GET is the
reinitialization default). -/
inductive HttpMethod
  | HTTP_GET
  | HTTP_HEAD
  | HTTP_POST
  | HTTP_PUT
  | HTTP_DELETE
  deriving DecidableEq, Repr

/-- Modelled from the spec: the UNEXPECTED_EOF error constant comes from the
ServerKit error header, which is not under src.  Only its identity (a nonzero
error code distinct from ordinary errno values) matters to the core. -/
def UNEXPECTED_EOF : Int := -1001

/-- Modelled from the spec: the HTTP_VERSION_NOT_SUPPORTED parse-error code
comes from the header-parser module, which is not under src.  Only its
identity matters to the dispatch in processClientDataWhenParsingHeaders. -/
def HTTP_VERSION_NOT_SUPPORTED : Int := -1010

/-- Modelled from the spec: getErrorDesc translates a parse-error code into
the parser-provided description; the table itself is not under src. -/
def getErrorDesc (e : Int) : String := "parse error " ++ toString e

/-- The limit 2^64 for uint64 arithmetic on the body counters. -/
def U64_MOD : Nat := 18446744073709551616

/-- Subtraction of uint64 values a - b, both below 2 to the 64, with
two's-complement wraparound as in the C++ source. -/
def u64sub (a b : Nat) : Nat := (a + U64_MOD - b) % U64_MOD

/-- Addition of uint64 values with wraparound. -/
def u64add (a b : Nat) : Nat := (a + b) % U64_MOD

/-- Request object.  Fields follow the data model of HttpRequest (spec
section 3) restricted to what HttpServer.h reads and writes.  The aux
discriminated union is modelled as separate fields (contentLength,
endChunkReached, parseError); pointers become has-flags; the two header
tables are ordered association lists of lowercased field name to value. -/
structure Request where
  httpState : HttpState
  httpMajor : Nat
  httpMinor : Nat
  method : HttpMethod
  bodyType : BodyType
  contentLength : Nat
  endChunkReached : Bool
  parseError : Int
  bodyAlreadyRead : Nat
  wantKeepAlive : Bool
  responseBegun : Bool
  refcount : Nat
  hasPool : Bool
  hasHeaderParser : Bool
  clientAttached : Bool
  headers : List (String × String)
  secureHeaders : List (String × String)
  bodyChannelInitialized : Bool
  bodyChannelBuffersFlushedCallbackSet : Bool
  bodyChannelDataFlushedCallbackSet : Bool
  deriving DecidableEq, Repr

/-- Modelled from the spec: the ended predicate lives in HttpRequest.h,
which is not under src.  The lifecycle (spec sections 3 and 4.C) makes a
request ended exactly in the terminal and error states: this is consistent
with the source assertion that a request is ended right after its state is
set to WAITING_FOR_REFERENCES, with endRequest treating FLUSHING_OUTPUT
requests as already ended, and with the ERROR-to-COMPLETE switch whose
stated purpose is to let the error response body be written again. -/
def Request.ended (req : Request) : Bool :=
  match req.httpState with
  | .FLUSHING_OUTPUT => true
  | .WAITING_FOR_REFERENCES => true
  | .IN_FREELIST => true
  | .ERROR => true
  | _ => false

/-- Modelled from the spec: canKeepAlive lives in HttpRequest.h, which is
not under src.  The spec (sections 4.C and 4.G) ties the keep-alive
decision to the wantKeepAlive flag: clearing wantKeepAlive disables
keep-alive reuse. -/
def Request.canKeepAlive (req : Request) : Bool := req.wantKeepAlive

/-- Modelled from the spec: bodyFullyRead lives in HttpRequest.h, which is
not under src.  For CONTENT_LENGTH bodies the spec (section 4.C) partitions
orderly EOF by bodyAlreadyRead below contentLength (under-run) versus equal
(fully read); for chunked bodies the end-chunk flag decides. -/
def Request.bodyFullyRead (req : Request) : Bool :=
  match req.bodyType with
  | .RBT_CONTENT_LENGTH => req.contentLength ≤ req.bodyAlreadyRead
  | .RBT_CHUNKED => req.endChunkReached
  | .RBT_NO_BODY => true
  | .RBT_UPGRADE => false

/-- Client object, restricted to the fields HttpServer.h reads and writes:
the ended-request bookkeeping and the observable state of the output
channel (whether an end-of-stream was fed and whether it was acknowledged). -/
structure Client where
  currentRequestBound : Bool
  endedRequestCount : Nat
  outputEnded : Bool
  outputEndAcked : Bool
  deriving DecidableEq, Repr

/-- A simple response synthesized by writeSimpleResponse: the status line
data and the ordered header block that follows the duplicated Status line. -/
structure SimpleResponse where
  code : Int
  status : String
  httpMajor : Nat
  httpMinor : Nat
  headerList : List (String × String)
  deriving DecidableEq, Repr

/-- Observable actions of the core, recorded as a trace: channel feeds,
input channel control, hook invocations, lifecycle steps.  setHttpState is
recorded where the source performs a state assignment whose ordering a
property talks about (the ERROR to COMPLETE switch). -/
inductive Event
  | inputStop
  | inputStart
  | onRequestBeginEvt
  | disconnect
  | setHttpState (st : HttpState)
  | writeHeaders (r : SimpleResponse)
  | writeBody (body : String)
  | outputFeedEmptyMbuf
  | bodyChannelData (size : Nat)
  | bodyChannelError (code : Int)
  | chunkedParserInit
  | chunkedParserFeed (size : Nat)
  | chunkedParserUnexpectedEof
  | deinitializeRequestEvt
  | doneWithCurrentRequestEvt
  | unrefRequestEvt
  | handleNextRequestEvt
  | bugEvt
  deriving DecidableEq, Repr

/-- Channel::Result returned by a data callback: number of consumed bytes
and the end flag. -/
structure ChannelResult where
  consumed : Nat
  isEnd : Bool
  deriving DecidableEq, Repr

/-- Combined output of one client-data step: the updated client and request
plus the trace of observable actions and the Channel::Result value. -/
structure StepOut where
  client : Client
  req : Request
  events : List Event
  result : ChannelResult
  deriving DecidableEq, Repr

/-- Results of external collaborators consulted during one step, passed in
as an oracle: the request state and consumed count produced by the pluggable
header parser feed, the subclass supportsUpgrade verdict, the body channel
threshold state after a feed, whether the data callback ended the request
during the feed, the chunked parser feed result, and the current date
string used for the Date response header. -/
structure Oracle where
  parsedReq : Request
  parsedConsumed : Nat
  supportsUpgradeResult : Bool
  passedThreshold : Bool
  endedAfterFeed : Bool
  chunkedFeedResult : ChannelResult
  now : String
  deriving Repr

/-- Lowercasing of one ASCII character, used to state case-insensitive
header-name comparison. -/
def lowerChar (c : Char) : Char :=
  if 65 ≤ c.toNat && c.toNat ≤ 90 then Char.ofNat (c.toNat + 32) else c

/-- ASCII-lowercased character list of a string. -/
def lowerKey (s : String) : List Char := s.data.map lowerChar

/-- Case-insensitive comparison of two header names. -/
def sameHeaderName (a b : String) : Bool := lowerKey a == lowerKey b

/-- Whether a header name is already all-lowercase, the invariant the data
model (spec section 3) states for the keys of the header tables. -/
def isLowercaseKey (s : String) : Bool := lowerKey s == s.data

/-- Number of headers of a block whose name equals the given name under
case-insensitive comparison. -/
def headerNameCount (hl : List (String × String)) (name : String) : Nat :=
  (hl.filter (fun h => sameHeaderName h.1 name)).length

/-- Modelled from the spec: HeaderTable is a container outside src; the data
model describes it as an ordered associative container mapping lowercased
field name to value, so lookup is first exact match on the key, as the
psg_lstr_cmp calls in the source compare keys byte for byte. -/
def lookupHeader (headers : Option (List (String × String))) (key : String) :
    Option String :=
  match headers with
  | none => none
  | some hs => (hs.find? (fun h => h.1 == key)).map (fun h => h.2)

/-- Modelled from the spec: the canonical reason-phrase table of
getStatusCodeAndReasonPhrase lives in a utility header outside src; the
entries for the codes the core itself emits are included. -/
def getStatusCodeAndReasonPhrase (code : Int) : Option String :=
  if code = 200 then some "200 OK"
  else if code = 201 then some "201 Created"
  else if code = 204 then some "204 No Content"
  else if code = 301 then some "301 Moved Permanently"
  else if code = 302 then some "302 Found"
  else if code = 400 then some "400 Bad Request"
  else if code = 401 then some "401 Unauthorized"
  else if code = 403 then some "403 Forbidden"
  else if code = 404 then some "404 Not Found"
  else if code = 500 then some "500 Internal Server Error"
  else if code = 502 then some "502 Bad Gateway"
  else if code = 503 then some "503 Service Unavailable"
  else if code = 505 then some "505 HTTP Version Not Supported"
  else none

/-- Status text of a response: the canonical phrase, falling back to the
Unknown Reason-Phrase format of the source. -/
def statusString (code : Int) : String :=
  match getStatusCodeAndReasonPhrase code with
  | some s => s
  | none => toString code ++ " Unknown Reason-Phrase"

/-- Modelled from the spec: the DEFAULT_INTERNAL_SERVER_ERROR_RESPONSE bytes
are an extern constant defined outside src; the spec only fixes that it is
the body of the default 500 response, so its exact content is immaterial. -/
def DEFAULT_INTERNAL_SERVER_ERROR_RESPONSE : String :=
  "An internal server error occurred."

/-- Header block of writeSimpleResponse in source emission order, together
with the flag telling whether the explicit Connection value clears
wantKeepAlive.  The four canonical entries come first: Content-Type
(defaulting to text/html), Date (defaulting to the current GMT time),
Connection (from canKeepAlive when absent), Content-Length (defaulting to
the body size); then every supplied header whose key is none of those four
is appended verbatim. -/
def buildSimpleResponseHeaders (req : Request)
    (headers : Option (List (String × String))) (body : String)
    (now : String) : List (String × String) × Bool :=
  let ctVal :=
    match lookupHeader headers "content-type" with
    | none => "text/html; charset=UTF-8"
    | some v => v
  let dateVal :=
    match lookupHeader headers "date" with
    | none => now
    | some v => v
  let connLookup := lookupHeader headers "connection"
  let connVal :=
    match connLookup with
    | none => if req.canKeepAlive then "keep-alive" else "close"
    | some v => v
  let clearKA :=
    match connLookup with
    | none => false
    | some v => !(v == "Keep-Alive") && !(v == "keep-alive")
  let clVal :=
    match lookupHeader headers "content-length" with
    | none => toString body.length
    | some v => v
  let extras := (headers.getD []).filter (fun h =>
    !(h.1 == "content-type") && !(h.1 == "date") &&
    !(h.1 == "connection") && !(h.1 == "content-length"))
  ([("Content-Type", ctVal), ("Date", dateVal), ("Connection", connVal),
    ("Content-Length", clVal)] ++ extras, clearKA)

/-- Output of writeSimpleResponse: the updated request, the synthesized
response and the trace of writeResponse calls. -/
structure WriteSimpleResponseOut where
  req : Request
  resp : SimpleResponse
  events : List Event
  deriving DecidableEq, Repr

/-- writeSimpleResponse from the source: synthesizes the status line and the
canonical header block, clears wantKeepAlive on an explicit Connection value
that is neither of the two keep-alive spellings, marks the response begun
via writeResponse, and writes the body afterwards unless the request has
ended or the method is HEAD. -/
def writeSimpleResponse (req : Request) (code : Int)
    (headers : Option (List (String × String))) (body : String)
    (now : String) : WriteSimpleResponseOut :=
  let built := buildSimpleResponseHeaders req headers body now
  let resp : SimpleResponse :=
    ⟨code, statusString code, req.httpMajor, req.httpMinor, built.1⟩
  let req1 := if built.2 then { req with wantKeepAlive := false } else req
  let req2 := { req1 with responseBegun := true }
  let evs :=
    if req.ended = false ∧ req.method ≠ HttpMethod.HTTP_HEAD then
      [Event.writeHeaders resp, Event.writeBody body]
    else
      [Event.writeHeaders resp]
  ⟨req2, resp, evs⟩

/-- deinitializeRequest from the source: releases the header-parser state
when still parsing headers, releases the arena pool when attached, clears
both header tables, parks the request in WAITING_FOR_REFERENCES, and
deinitializes the body channel with its callbacks. -/
def deinitializeRequest (req : Request) : Request :=
  let req1 :=
    if req.httpState = HttpState.PARSING_HEADERS ∧ req.hasHeaderParser then
      { req with hasHeaderParser := false }
    else req
  { req1 with
    headers := []
    secureHeaders := []
    hasPool := false
    httpState := HttpState.WAITING_FOR_REFERENCES
    bodyChannelBuffersFlushedCallbackSet := false
    bodyChannelDataFlushedCallbackSet := false
    bodyChannelInitialized := false }

/-- deinitializeRequestAndAddToFreelist from the source: when the request is
not yet waiting for references, switches it there, deinitializes it and
pushes it on the ended-requests list of the client. -/
def deinitializeRequestAndAddToFreelist (client : Client) (req : Request) :
    Client × Request × List Event :=
  if req.httpState ≠ HttpState.WAITING_FOR_REFERENCES then
    let req1 := { req with httpState := HttpState.WAITING_FOR_REFERENCES }
    let req2 := deinitializeRequest req1
    ({ client with endedRequestCount := client.endedRequestCount + 1 },
      req2, [Event.deinitializeRequestEvt])
  else
    (client, req, [])

/-- doneWithCurrentRequest from the source: records the keep-alive verdict,
unbinds the current request, destroys the arena pool, drops the request
reference, and either starts the next request or disconnects.  The
reference-count drop itself is handled by the freelist component and is
recorded here as an event. -/
def doneWithCurrentRequest (client : Client) (req : Request) :
    Client × Request × List Event :=
  let keepAlive := req.canKeepAlive
  let client1 := { client with currentRequestBound := false }
  let req1 := { req with hasPool := false }
  (client1, req1,
    [Event.doneWithCurrentRequestEvt, Event.unrefRequestEvt]
      ++ (if keepAlive then [Event.handleNextRequestEvt]
          else [Event.disconnect]))

/-- Output of endRequest: the boolean return value, the updated client and
request, and the trace. -/
structure EndRequestOut where
  returned : Bool
  client : Client
  req : Request
  events : List Event
  deriving DecidableEq, Repr

/-- endRequest from the source.  An already ended request is left alone and
false is returned.  Otherwise the default 500 response is written when no
response has begun; the arena pool is detached across the deinitialization
so in-flight output stays valid, and reattached; the output channel is
closed with an empty buffer when still open; and depending on whether the
output end is acknowledged the request either finishes now through
doneWithCurrentRequest or parks in FLUSHING_OUTPUT. -/
def endRequest (client : Client) (req : Request) (now : String) :
    EndRequestOut :=
  if req.ended then
    ⟨false, client, req, []⟩
  else
    let w :=
      if req.responseBegun = false then
        let w0 := writeSimpleResponse req 500 none
          DEFAULT_INTERNAL_SERVER_ERROR_RESPONSE now
        (w0.req, w0.events)
      else
        (req, [])
    let req1 := w.1
    let pool := req1.hasPool
    let req2 := { req1 with hasPool := false }
    let d := deinitializeRequestAndAddToFreelist client req2
    let client2 := d.1
    let req3 := { d.2.1 with hasPool := pool }
    let f :=
      if client2.outputEnded = false then
        ({ client2 with outputEnded := true }, [Event.outputFeedEmptyMbuf])
      else
        (client2, ([] : List Event))
    let client3 := f.1
    if client3.outputEndAcked then
      let dn := doneWithCurrentRequest client3 req3
      ⟨true, dn.1, dn.2.1, w.2 ++ d.2.2 ++ f.2 ++ dn.2.2⟩
    else
      ⟨true, client3, { req3 with httpState := HttpState.FLUSHING_OUTPUT },
        w.2 ++ d.2.2 ++ f.2⟩

/-- Output of endWithErrorResponse. -/
structure EndWithErrorOut where
  client : Client
  req : Request
  events : List Event
  deriving DecidableEq, Repr

/-- endWithErrorResponse from the source: inserts Connection close and the
no-cache Cache-Control into a fresh header table, writes the simple
response, then ends the request. -/
def endWithErrorResponse (client : Client) (req : Request) (code : Int)
    (body : String) (now : String) : EndWithErrorOut :=
  let table := [("connection", "close"),
                ("cache-control", "no-cache, no-store, must-revalidate")]
  let w := writeSimpleResponse req code (some table) body now
  let e := endRequest client w.req now
  ⟨e.client, e.req, w.events ++ e.events⟩

/-- endAsBadRequest from the source: an error response with code 400. -/
def endAsBadRequest (client : Client) (req : Request) (body : String)
    (now : String) : EndWithErrorOut :=
  endWithErrorResponse client req 400 body now

/-- requestBodyConsumed from the source: once the body is fully read, stops
the input channel and feeds the empty end-of-body buffer to the body
channel. -/
def requestBodyConsumed (client : Client) (req : Request) :
    Client × Request × List Event :=
  if req.bodyFullyRead then
    (client, req, [Event.inputStop, Event.bodyChannelData 0])
  else
    (client, req, [])

/-- processClientDataWhenParsingHeaders from the source.  With data, the
buffer is fed to the pluggable header parser (its outcome is the oracle
parsedReq and parsedConsumed); while parsing continues the whole buffer is
consumed; on completion the parser state is destroyed and the new state is
dispatched: COMPLETE stops input and begins the request, the body states
begin the request (the chunked state first initializes the chunked parser),
an upgrade is either begun or refused with a 400, and ERROR is first
switched to COMPLETE and then answered with 505 or 400.  A zero-size buffer
disconnects the client. -/
def processClientDataWhenParsingHeaders (client : Client) (req : Request)
    (bufSize : Nat) (errcode : Int) (o : Oracle) : StepOut :=
  if 0 < bufSize then
    let parsed := o.parsedReq
    let ret := o.parsedConsumed
    if parsed.httpState = HttpState.PARSING_HEADERS then
      ⟨client, parsed, [], ⟨bufSize, false⟩⟩
    else
      let parsed := { parsed with hasHeaderParser := false }
      match parsed.httpState with
      | .COMPLETE =>
          ⟨client, parsed, [Event.inputStop, Event.onRequestBeginEvt],
            ⟨ret, false⟩⟩
      | .PARSING_BODY =>
          ⟨client, parsed, [Event.onRequestBeginEvt], ⟨ret, false⟩⟩
      | .PARSING_CHUNKED_BODY =>
          ⟨client, parsed,
            [Event.chunkedParserInit, Event.onRequestBeginEvt], ⟨ret, false⟩⟩
      | .UPGRADED =>
          if o.supportsUpgradeResult then
            ⟨client, parsed, [Event.onRequestBeginEvt], ⟨ret, false⟩⟩
          else
            let e := endAsBadRequest client parsed
              "Bad request (connection upgrading not allowed for this request)"
              o.now
            ⟨e.client, e.req, e.events, ⟨0, true⟩⟩
      | .ERROR =>
          let parsed2 := { parsed with httpState := HttpState.COMPLETE }
          if parsed.parseError = HTTP_VERSION_NOT_SUPPORTED then
            let e := endWithErrorResponse client parsed2 505
              "HTTP version not supported\n" o.now
            ⟨e.client, e.req,
              Event.setHttpState HttpState.COMPLETE :: e.events, ⟨0, true⟩⟩
          else
            let e := endAsBadRequest client parsed2
              (getErrorDesc parsed.parseError) o.now
            ⟨e.client, e.req,
              Event.setHttpState HttpState.COMPLETE :: e.events, ⟨0, true⟩⟩
      | _ =>
          ⟨client, parsed, [Event.bugEvt], ⟨0, true⟩⟩
  else
    ⟨client, req, [Event.disconnect], ⟨0, true⟩⟩

/-- processClientDataWhenParsingBody from the source.  With data, the buffer
size is clamped to the remaining content length in uint64 arithmetic, the
counter advances, the clamped slice is fed to the body channel, and unless
the feed ended the request the backpressure policy either re-checks
completion or stops input and arms the buffers-flushed callback.  An
orderly EOF feeds the empty end-of-body buffer when the body is fully read
and the UNEXPECTED_EOF error otherwise; a read error is forwarded to the
body channel. -/
def processClientDataWhenParsingBody (client : Client) (req : Request)
    (bufSize : Nat) (errcode : Int) (o : Oracle) : StepOut :=
  if 0 < bufSize then
    let maxRemaining := u64sub req.contentLength req.bodyAlreadyRead
    let remaining := min bufSize maxRemaining
    let req1 := { req with
      bodyAlreadyRead := u64add req.bodyAlreadyRead remaining }
    if o.endedAfterFeed = false then
      if o.passedThreshold = false then
        let rbc := requestBodyConsumed client req1
        ⟨rbc.1, rbc.2.1, Event.bodyChannelData remaining :: rbc.2.2,
          ⟨remaining, false⟩⟩
      else
        ⟨client,
          { req1 with bodyChannelBuffersFlushedCallbackSet := true },
          [Event.bodyChannelData remaining, Event.inputStop],
          ⟨remaining, false⟩⟩
    else
      ⟨client, req1, [Event.bodyChannelData remaining], ⟨remaining, false⟩⟩
  else if errcode = 0 then
    if req.bodyFullyRead then
      ⟨client, req, [Event.bodyChannelData 0], ⟨0, false⟩⟩
    else
      ⟨client, req, [Event.bodyChannelError UNEXPECTED_EOF], ⟨0, false⟩⟩
  else
    ⟨client, req, [Event.bodyChannelError errcode], ⟨0, false⟩⟩

/-- processClientDataWhenParsingChunkedBody from the source: data advances
the raw byte counter and goes to the chunked parser (its result is the
oracle chunkedFeedResult); end of input informs the chunked parser of the
unexpected EOF. -/
def processClientDataWhenParsingChunkedBody (client : Client) (req : Request)
    (bufSize : Nat) (errcode : Int) (o : Oracle) : StepOut :=
  if 0 < bufSize then
    let req1 := { req with
      bodyAlreadyRead := u64add req.bodyAlreadyRead bufSize }
    ⟨client, req1, [Event.chunkedParserFeed bufSize], o.chunkedFeedResult⟩
  else
    ⟨client, req, [Event.chunkedParserUnexpectedEof], ⟨0, true⟩⟩

/-- processClientDataWhenUpgraded from the source: data is forwarded
verbatim to the body channel with the same backpressure policy as the
content-length path; orderly EOF feeds the empty buffer; errors are
forwarded. -/
def processClientDataWhenUpgraded (client : Client) (req : Request)
    (bufSize : Nat) (errcode : Int) (o : Oracle) : StepOut :=
  if 0 < bufSize then
    let req1 := { req with
      bodyAlreadyRead := u64add req.bodyAlreadyRead bufSize }
    if o.endedAfterFeed = false then
      if o.passedThreshold = false then
        let rbc := requestBodyConsumed client req1
        ⟨rbc.1, rbc.2.1, Event.bodyChannelData bufSize :: rbc.2.2,
          ⟨bufSize, false⟩⟩
      else
        ⟨client,
          { req1 with bodyChannelBuffersFlushedCallbackSet := true },
          [Event.bodyChannelData bufSize, Event.inputStop],
          ⟨bufSize, false⟩⟩
    else
      ⟨client, req1, [Event.bodyChannelData bufSize], ⟨bufSize, false⟩⟩
  else if errcode = 0 then
    ⟨client, req, [Event.bodyChannelData 0], ⟨0, false⟩⟩
  else
    ⟨client, req, [Event.bodyChannelError errcode], ⟨0, false⟩⟩

/-- onClientDataReceived from the source: dispatch on the http state of the
current request; any other state is a fatal invariant violation. -/
def onClientDataReceived (client : Client) (req : Request) (bufSize : Nat)
    (errcode : Int) (o : Oracle) : StepOut :=
  match req.httpState with
  | .PARSING_HEADERS =>
      processClientDataWhenParsingHeaders client req bufSize errcode o
  | .PARSING_BODY =>
      processClientDataWhenParsingBody client req bufSize errcode o
  | .PARSING_CHUNKED_BODY =>
      processClientDataWhenParsingChunkedBody client req bufSize errcode o
  | .UPGRADED =>
      processClientDataWhenUpgraded client req bufSize errcode o
  | _ =>
      ⟨client, req, [Event.bugEvt], ⟨0, false⟩⟩

/-- Server-level working state of the freelist component. -/
structure HttpServerState where
  freeRequests : List Request
  freeRequestCount : Nat
  requestFreelistLimit : Nat
  totalRequestsAccepted : Nat
  deriving DecidableEq, Repr

/-- addRequestToFreelist from the source: when below the limit, the request
is prepended with its reference count stored back to one and its state set
to IN_FREELIST, and true is returned; otherwise the state is untouched and
false is returned. -/
def addRequestToFreelist (st : HttpServerState) (req : Request) :
    Bool × HttpServerState :=
  if st.freeRequestCount < st.requestFreelistLimit then
    let req1 := { req with
      refcount := 1
      httpState := HttpState.IN_FREELIST }
    (true, { st with
      freeRequests := req1 :: st.freeRequests
      freeRequestCount := st.freeRequestCount + 1 })
  else
    (false, st)

/-- What became of a request whose reference count reached zero. -/
inductive Disposition
  | addedToFreelist
  | destroyed
  deriving DecidableEq, Repr

/-- requestReachedZeroRefcount from the source: unlinks the request from the
ended-requests list of its client, detaches the client, and either recycles
the request through addRequestToFreelist or destroys it. -/
def requestReachedZeroRefcount (st : HttpServerState) (client : Client)
    (req : Request) : HttpServerState × Client × Disposition :=
  let client1 := { client with
    endedRequestCount := client.endedRequestCount - 1 }
  let req1 := { req with clientAttached := false }
  let a := addRequestToFreelist st req1
  if a.1 then (a.2, client1, Disposition.addedToFreelist)
  else (a.2, client1, Disposition.destroyed)

/-- Modelled from the spec: the Request constructor and the
onRequestObjectCreated hook wiring live outside the core paths under
verification; a freshly allocated request object before reinitialization.
Its field values are immaterial because reinitializeRequest overwrites
every field the core reads. -/
def newRequestObject : Request :=
  ⟨HttpState.COMPLETE, 1, 0, HttpMethod.HTTP_GET, BodyType.RBT_NO_BODY,
   0, false, 0, 0, false, false, 1, false, false, false, [], [],
   false, false, false⟩

/-- checkoutRequestObject from the source: the head of the freelist when it
is nonempty, otherwise a fresh allocation; the allocation attempt can fail
(std::bad_alloc), in which case NULL is returned, modelled as none. -/
def checkoutRequestObject (st : HttpServerState) (allocSucceeds : Bool) :
    HttpServerState × Option Request :=
  match st.freeRequests with
  | r :: rest =>
      ({ st with
          freeRequests := rest
          freeRequestCount := st.freeRequestCount - 1 }, some r)
  | [] =>
      if allocSucceeds then (st, some newRequestObject) else (st, none)

/-- reinitializeRequest from the source: resets the protocol fields to the
HTTP/1.0 GET defaults, enters PARSING_HEADERS, constructs a fresh
header-parser state and arena pool, reinitializes the body channel and
zeroes the aux union and the body counter. -/
def reinitializeRequest (req : Request) : Request :=
  { req with
    httpMajor := 1
    httpMinor := 0
    httpState := HttpState.PARSING_HEADERS
    bodyType := BodyType.RBT_NO_BODY
    method := HttpMethod.HTTP_GET
    wantKeepAlive := false
    responseBegun := false
    hasHeaderParser := true
    hasPool := true
    bodyChannelInitialized := true
    contentLength := 0
    endChunkReached := false
    parseError := 0
    bodyAlreadyRead := 0 }

/-- Result of handleNextRequest.  The source binds the checked-out request
to the client and immediately writes through the pointer; when the checkout
returned NULL this is a null-pointer dereference, not any form of error
handling. -/
inductive HandleNextOutcome
  | ok (st : HttpServerState) (client : Client) (req : Request)
  | nullPointerDereference
  deriving DecidableEq, Repr

/-- handleNextRequest from the source: references the client, starts input,
reinitializes the output channel, checks out a request object, stores the
back-pointer through the returned pointer with no NULL check, and
reinitializes the request. -/
def handleNextRequest (st : HttpServerState) (client : Client)
    (allocSucceeds : Bool) : HandleNextOutcome :=
  let client1 := { client with outputEnded := false, outputEndAcked := false }
  let c := checkoutRequestObject st allocSucceeds
  match c.2 with
  | some req =>
      let req1 := { req with clientAttached := true }
      let req2 := reinitializeRequest req1
      HandleNextOutcome.ok c.1 { client1 with currentRequestBound := true } req2
  | none => HandleNextOutcome.nullPointerDereference

/-- Oracle for a body-data step: the header-parser fields are immaterial in
the PARSING_BODY state; only the backpressure observations vary. -/
def mkBodyOracle (pt ef : Bool) : Oracle :=
  ⟨newRequestObject, 0, false, pt, ef, ⟨0, false⟩, ""⟩

/-- Accumulated outcome of delivering a sequence of buffers. -/
structure DeliverOut where
  client : Client
  req : Request
  events : List Event
  results : List ChannelResult
  deriving DecidableEq, Repr

/-- Delivery of a sequence of input buffers through onClientDataReceived
with errcode zero; each list entry carries the buffer size and the
backpressure observations of that step. -/
def deliverBodyBuffers (client : Client) (req : Request) :
    List (Nat × Bool × Bool) → DeliverOut
  | [] => ⟨client, req, [], []⟩
  | (b, pt, ef) :: rest =>
      let out := onClientDataReceived client req b 0 (mkBodyOracle pt ef)
      let tail := deliverBodyBuffers out.client out.req rest
      ⟨tail.client, tail.req, out.events ++ tail.events,
        out.result :: tail.results⟩

/-- Total number of data bytes fed to the body channel in a trace. -/
def dataBytes (evs : List Event) : Nat :=
  (evs.filterMap (fun e =>
    match e with
    | Event.bodyChannelData n => some n
    | _ => none)).sum

/-- Whether a list of fed sizes is, step by step, the clamp of the
corresponding buffer size to the content length remaining after the
previously fed bytes. -/
def clampedTrace (cl : Nat) (read : Nat) :
    List Nat → List Nat → Bool
  | [], [] => true
  | b :: bs, m :: ms =>
      decide (m = min b (cl - read)) && clampedTrace cl (read + m) bs ms
  | _, _ => false

/-- Sample client used by concrete witnesses. -/
def baseClient : Client := ⟨true, 0, false, false⟩

lemma u64sub_eq {a b : Nat} (hba : b ≤ a) (ha : a < U64_MOD) :
    u64sub a b = a - b := by
  unfold u64sub U64_MOD at *
  omega

lemma u64add_eq {a b : Nat} (h : a + b < U64_MOD) :
    u64add a b = a + b := by
  unfold u64add U64_MOD at *
  omega

lemma dataBytes_append (l1 l2 : List Event) :
    dataBytes (l1 ++ l2) = dataBytes l1 + dataBytes l2 := by
  unfold dataBytes
  rw [List.filterMap_append, List.sum_append]

/-- One PARSING_BODY step preserves the dispatch-relevant request fields and
feeds, consumes and counts exactly the clamp of the buffer size to the
remaining content length. -/
lemma parsingBody_step (client : Client) (req : Request) (b : Nat)
    (o : Oracle)
    (hr : req.bodyAlreadyRead ≤ req.contentLength)
    (hcl : req.contentLength < U64_MOD) :
    (processClientDataWhenParsingBody client req b 0 o).req.httpState
        = req.httpState ∧
    (processClientDataWhenParsingBody client req b 0 o).req.bodyType
        = req.bodyType ∧
    (processClientDataWhenParsingBody client req b 0 o).req.contentLength
        = req.contentLength ∧
    (processClientDataWhenParsingBody client req b 0 o).req.bodyAlreadyRead
        = req.bodyAlreadyRead
          + min b (req.contentLength - req.bodyAlreadyRead) ∧
    (processClientDataWhenParsingBody client req b 0 o).result.consumed
        = min b (req.contentLength - req.bodyAlreadyRead) ∧
    dataBytes (processClientDataWhenParsingBody client req b 0 o).events
        = min b (req.contentLength - req.bodyAlreadyRead) := by
  have hsub : u64sub req.contentLength req.bodyAlreadyRead
      = req.contentLength - req.bodyAlreadyRead := u64sub_eq hr hcl
  have hadd : u64add req.bodyAlreadyRead
      (min b (req.contentLength - req.bodyAlreadyRead))
      = req.bodyAlreadyRead
        + min b (req.contentLength - req.bodyAlreadyRead) := by
    apply u64add_eq
    omega
  unfold processClientDataWhenParsingBody requestBodyConsumed
  by_cases hb : 0 < b
  · simp only [if_pos hb, hsub, hadd]
    by_cases hef : o.endedAfterFeed = false
    · by_cases hpt : o.passedThreshold = false
      · simp only [if_pos hef, if_pos hpt]
        split
        · simp [dataBytes]
        · simp [dataBytes]
      · simp only [if_pos hef, if_neg hpt]
        simp [dataBytes]
    · simp only [if_neg hef]
      simp [dataBytes]
  · have hb0 : b = 0 := by omega
    subst hb0
    simp only [if_neg hb]
    split
    · split
      · simp [dataBytes]
      · simp [dataBytes]
    · simp [dataBytes]

lemma onClientDataReceived_parsingBody (client : Client) (req : Request)
    (b : Nat) (e : Int) (o : Oracle)
    (hs : req.httpState = HttpState.PARSING_BODY) :
    onClientDataReceived client req b e o
      = processClientDataWhenParsingBody client req b e o := by
  unfold onClientDataReceived
  rw [hs]

lemma deliverBodyBuffers_cons (client : Client) (req : Request) (b : Nat)
    (pt ef : Bool) (rest : List (Nat × Bool × Bool)) :
    deliverBodyBuffers client req ((b, pt, ef) :: rest)
      = ⟨(deliverBodyBuffers
            (onClientDataReceived client req b 0 (mkBodyOracle pt ef)).client
            (onClientDataReceived client req b 0 (mkBodyOracle pt ef)).req
            rest).client,
         (deliverBodyBuffers
            (onClientDataReceived client req b 0 (mkBodyOracle pt ef)).client
            (onClientDataReceived client req b 0 (mkBodyOracle pt ef)).req
            rest).req,
         (onClientDataReceived client req b 0 (mkBodyOracle pt ef)).events
           ++ (deliverBodyBuffers
            (onClientDataReceived client req b 0 (mkBodyOracle pt ef)).client
            (onClientDataReceived client req b 0 (mkBodyOracle pt ef)).req
            rest).events,
         (onClientDataReceived client req b 0 (mkBodyOracle pt ef)).result
           :: (deliverBodyBuffers
            (onClientDataReceived client req b 0 (mkBodyOracle pt ef)).client
            (onClientDataReceived client req b 0 (mkBodyOracle pt ef)).req
            rest).results⟩ := rfl

/-- Fold version of the step lemma over a whole buffer sequence. -/
lemma deliverBodyBuffers_spec (bufs : List (Nat × Bool × Bool))
    (client : Client) (req : Request)
    (hs : req.httpState = HttpState.PARSING_BODY)
    (hr : req.bodyAlreadyRead ≤ req.contentLength)
    (hcl : req.contentLength < U64_MOD) :
    (deliverBodyBuffers client req bufs).req.httpState
        = HttpState.PARSING_BODY ∧
    (deliverBodyBuffers client req bufs).req.contentLength
        = req.contentLength ∧
    (deliverBodyBuffers client req bufs).req.bodyAlreadyRead
        = req.bodyAlreadyRead
          + dataBytes (deliverBodyBuffers client req bufs).events ∧
    (deliverBodyBuffers client req bufs).req.bodyAlreadyRead
        ≤ req.contentLength ∧
    dataBytes (deliverBodyBuffers client req bufs).events
        = min ((bufs.map (fun x => x.1)).sum)
            (req.contentLength - req.bodyAlreadyRead) ∧
    clampedTrace req.contentLength req.bodyAlreadyRead
        (bufs.map (fun x => x.1))
        ((deliverBodyBuffers client req bufs).results.map
          (fun r => r.consumed)) = true := by
  induction bufs generalizing client req with
  | nil =>
      simp [deliverBodyBuffers, dataBytes, clampedTrace, hs]
      omega
  | cons x rest ih =>
      obtain ⟨b, pt, ef⟩ := x
      have hdisp : onClientDataReceived client req b 0 (mkBodyOracle pt ef)
          = processClientDataWhenParsingBody client req b 0
              (mkBodyOracle pt ef) :=
        onClientDataReceived_parsingBody client req b 0 (mkBodyOracle pt ef) hs
      rw [deliverBodyBuffers_cons, hdisp]
      have hstep := parsingBody_step client req b (mkBodyOracle pt ef) hr hcl
      set out := processClientDataWhenParsingBody client req b 0
        (mkBodyOracle pt ef) with hout
      obtain ⟨hS, hB, hC, hR, hCons, hD⟩ := hstep
      have hr' : out.req.bodyAlreadyRead ≤ out.req.contentLength := by
        rw [hR, hC]
        omega
      have hcl' : out.req.contentLength < U64_MOD := by
        rw [hC]
        exact hcl
      have hs' : out.req.httpState = HttpState.PARSING_BODY := by
        rw [hS, hs]
      have ihx := ih out.client out.req hs' hr' hcl'
      obtain ⟨iS, iC, iR, iB, iD, iT⟩ := ihx
      refine ⟨iS, ?_, ?_, ?_, ?_, ?_⟩
      · rw [iC, hC]
      · simp only [dataBytes_append]
        rw [iR, hR, hD]
        omega
      · exact le_of_le_of_eq iB hC
      · simp only [dataBytes_append, List.map_cons, List.sum_cons]
        rw [iD, hD, hC, hR]
        omega
      · simp only [List.map_cons]
        unfold clampedTrace
        rw [Bool.and_eq_true]
        refine ⟨by simp [hCons], ?_⟩
        rw [hCons]
        rw [hC, hR] at iT
        exact iT

/-- C1: in PARSING_BODY with a CONTENT_LENGTH body, every delivered buffer
is clamped to the remaining content length before being fed to bodyChannel,
bodyAlreadyRead never exceeds contentLength, and the total number of data
bytes fed equals the minimum of the total bytes received and the content
length. -/
theorem contentLength_body_ingest (client : Client) (req : Request)
    (bufs : List (Nat × Bool × Bool))
    (hs : req.httpState = HttpState.PARSING_BODY)
    (hbt : req.bodyType = BodyType.RBT_CONTENT_LENGTH)
    (h0 : req.bodyAlreadyRead = 0)
    (hcl : req.contentLength < U64_MOD)
    (hpos : ∀ x ∈ bufs, 0 < x.1) :
    clampedTrace req.contentLength 0 (bufs.map (fun x => x.1))
      ((deliverBodyBuffers client req bufs).results.map
        (fun r => r.consumed)) = true ∧
    (∀ n : Nat, (deliverBodyBuffers client req (bufs.take n)).req.bodyAlreadyRead
        ≤ req.contentLength) ∧
    dataBytes (deliverBodyBuffers client req bufs).events
      = min ((bufs.map (fun x => x.1)).sum) req.contentLength := by
  have hr : req.bodyAlreadyRead ≤ req.contentLength := by
    rw [h0]
    exact Nat.zero_le _
  refine ⟨?_, ?_, ?_⟩
  · have h := (deliverBodyBuffers_spec bufs client req hs hr hcl).2.2.2.2.2
    rw [h0] at h
    exact h
  · intro n
    exact (deliverBodyBuffers_spec (bufs.take n) client req hs hr hcl).2.2.2.1
  · have h := (deliverBodyBuffers_spec bufs client req hs hr hcl).2.2.2.2.1
    rw [h0] at h
    simpa using h

/-- Witness for C1 at a concrete request with content length 5 receiving
buffers of 3 and 4 bytes: the fed sizes are 3 and 2, the counter stays at
or below 5, and the total fed is min of 7 and 5. -/
theorem contentLength_body_ingest_witness :
    clampedTrace 5 0 [3, 4]
      ((deliverBodyBuffers baseClient
        { newRequestObject with
            httpState := HttpState.PARSING_BODY
            bodyType := BodyType.RBT_CONTENT_LENGTH
            contentLength := 5 }
        [(3, false, false), (4, true, false)]).results.map
        (fun r => r.consumed)) = true ∧
    (deliverBodyBuffers baseClient
        { newRequestObject with
            httpState := HttpState.PARSING_BODY
            bodyType := BodyType.RBT_CONTENT_LENGTH
            contentLength := 5 }
        ([(3, false, false), (4, true, false)].take 1)).req.bodyAlreadyRead
      ≤ 5 ∧
    dataBytes (deliverBodyBuffers baseClient
        { newRequestObject with
            httpState := HttpState.PARSING_BODY
            bodyType := BodyType.RBT_CONTENT_LENGTH
            contentLength := 5 }
        [(3, false, false), (4, true, false)]).events = min 7 5 := by
  have h := contentLength_body_ingest baseClient
    { newRequestObject with
        httpState := HttpState.PARSING_BODY
        bodyType := BodyType.RBT_CONTENT_LENGTH
        contentLength := 5 }
    [(3, false, false), (4, true, false)]
    rfl rfl rfl (by decide) (by decide)
  exact ⟨h.1, h.2.1 1, by simpa using h.2.2⟩

/-- C5: an orderly EOF (zero-size buffer, errcode zero) while parsing a
CONTENT_LENGTH body feeds the UNEXPECTED_EOF error to the body channel when
bodyAlreadyRead is below contentLength, and feeds the empty end-of-body
buffer when they are equal. -/
theorem parsingBody_orderly_eof (client : Client) (req : Request)
    (o : Oracle)
    (hs : req.httpState = HttpState.PARSING_BODY)
    (hbt : req.bodyType = BodyType.RBT_CONTENT_LENGTH) :
    (req.bodyAlreadyRead < req.contentLength →
      (onClientDataReceived client req 0 0 o).events
        = [Event.bodyChannelError UNEXPECTED_EOF]) ∧
    (req.bodyAlreadyRead = req.contentLength →
      (onClientDataReceived client req 0 0 o).events
        = [Event.bodyChannelData 0]) := by
  have hd := onClientDataReceived_parsingBody client req 0 0 o hs
  constructor
  · intro hlt
    have hfr : req.bodyFullyRead = false := by
      simp [Request.bodyFullyRead, hbt]
      omega
    rw [hd]
    simp [processClientDataWhenParsingBody, hfr]
  · intro heq
    have hfr : req.bodyFullyRead = true := by
      simp [Request.bodyFullyRead, hbt]
      omega
    rw [hd]
    simp [processClientDataWhenParsingBody, hfr]

/-- Witness for C5 at a request with 2 of 5 body bytes read: orderly EOF
produces the UNEXPECTED_EOF body-channel error. -/
theorem parsingBody_orderly_eof_witness :
    (onClientDataReceived baseClient
      { newRequestObject with
          httpState := HttpState.PARSING_BODY
          bodyType := BodyType.RBT_CONTENT_LENGTH
          contentLength := 5
          bodyAlreadyRead := 2 }
      0 0 (mkBodyOracle false false)).events
      = [Event.bodyChannelError UNEXPECTED_EOF] :=
  (parsingBody_orderly_eof baseClient
    { newRequestObject with
        httpState := HttpState.PARSING_BODY
        bodyType := BodyType.RBT_CONTENT_LENGTH
        contentLength := 5
        bodyAlreadyRead := 2 }
    (mkBodyOracle false false) rfl rfl).1 (by decide)

lemma string_eq_of_data_eq {a b : String} (h : a.data = b.data) : a = b := by
  cases a
  cases b
  exact congrArg String.mk h

lemma sameHeaderName_of_ne {k n : String} (hk : isLowercaseKey k = true)
    (hn : lowerKey n = n.data) (hne : k ≠ n) :
    sameHeaderName k n = false := by
  unfold isLowercaseKey at hk
  rw [beq_iff_eq] at hk
  unfold sameHeaderName
  rw [beq_eq_false_iff_ne]
  intro hcontra
  apply hne
  apply string_eq_of_data_eq
  rw [← hk, hcontra, hn]

lemma headerNameCount_append (l1 l2 : List (String × String)) (n : String) :
    headerNameCount (l1 ++ l2) n = headerNameCount l1 n + headerNameCount l2 n := by
  simp [headerNameCount, List.filter_append]

lemma headerNameCount_eq_zero (l : List (String × String)) (n : String)
    (h : ∀ x ∈ l, sameHeaderName x.1 n = false) :
    headerNameCount l n = 0 := by
  unfold headerNameCount
  rw [List.length_eq_zero]
  rw [List.filter_eq_nil_iff]
  intro a ha
  rw [h a ha]
  exact Bool.false_ne_true

/-- C2: the header block of writeSimpleResponse contains each of
Content-Type, Date, Connection and Content-Length exactly once
(case-insensitively), and after those four the supplied headers other than
those four appear verbatim, in order, exactly once each. -/
theorem writeSimpleResponse_header_block (req : Request)
    (table : List (String × String)) (body now : String)
    (hlower : ∀ h ∈ table, isLowercaseKey h.1 = true) :
    headerNameCount (buildSimpleResponseHeaders req (some table) body now).1
      "content-type" = 1 ∧
    headerNameCount (buildSimpleResponseHeaders req (some table) body now).1
      "date" = 1 ∧
    headerNameCount (buildSimpleResponseHeaders req (some table) body now).1
      "connection" = 1 ∧
    headerNameCount (buildSimpleResponseHeaders req (some table) body now).1
      "content-length" = 1 ∧
    (buildSimpleResponseHeaders req (some table) body now).1.drop 4
      = table.filter (fun h =>
          !(h.1 == "content-type") && !(h.1 == "date") &&
          !(h.1 == "connection") && !(h.1 == "content-length")) := by
  have hz : ∀ n : String, lowerKey n = n.data →
      (n = "content-type" ∨ n = "date" ∨ n = "connection" ∨
        n = "content-length") →
      headerNameCount (table.filter (fun h =>
          !(h.1 == "content-type") && !(h.1 == "date") &&
          !(h.1 == "connection") && !(h.1 == "content-length"))) n = 0 := by
    intro n hn hcase
    apply headerNameCount_eq_zero
    intro x hx
    have hmem : x ∈ table := List.mem_of_mem_filter hx
    have hp := List.of_mem_filter hx
    simp only [Bool.and_eq_true, Bool.not_eq_true'] at hp
    apply sameHeaderName_of_ne (hlower x hmem) hn
    intro hcontra
    rcases hcase with h | h | h | h <;>
      (subst h; rw [hcontra] at hp; simp at hp)
  have hform : (buildSimpleResponseHeaders req (some table) body now).1
      = [("Content-Type",
            match lookupHeader (some table) "content-type" with
            | none => "text/html; charset=UTF-8"
            | some v => v),
         ("Date",
            match lookupHeader (some table) "date" with
            | none => now
            | some v => v),
         ("Connection",
            match lookupHeader (some table) "connection" with
            | none => if req.canKeepAlive then "keep-alive" else "close"
            | some v => v),
         ("Content-Length",
            match lookupHeader (some table) "content-length" with
            | none => toString body.length
            | some v => v)]
        ++ table.filter (fun h =>
            !(h.1 == "content-type") && !(h.1 == "date") &&
            !(h.1 == "connection") && !(h.1 == "content-length")) := by
    simp [buildSimpleResponseHeaders]
  have e11 : sameHeaderName "Content-Type" "content-type" = true := by decide
  have e12 : sameHeaderName "Date" "content-type" = false := by decide
  have e13 : sameHeaderName "Connection" "content-type" = false := by decide
  have e14 : sameHeaderName "Content-Length" "content-type" = false := by
    decide
  have e21 : sameHeaderName "Content-Type" "date" = false := by decide
  have e22 : sameHeaderName "Date" "date" = true := by decide
  have e23 : sameHeaderName "Connection" "date" = false := by decide
  have e24 : sameHeaderName "Content-Length" "date" = false := by decide
  have e31 : sameHeaderName "Content-Type" "connection" = false := by decide
  have e32 : sameHeaderName "Date" "connection" = false := by decide
  have e33 : sameHeaderName "Connection" "connection" = true := by decide
  have e34 : sameHeaderName "Content-Length" "connection" = false := by decide
  have e41 : sameHeaderName "Content-Type" "content-length" = false := by
    decide
  have e42 : sameHeaderName "Date" "content-length" = false := by decide
  have e43 : sameHeaderName "Connection" "content-length" = false := by decide
  have e44 : sameHeaderName "Content-Length" "content-length" = true := by
    decide
  rw [hform]
  refine ⟨?_, ?_, ?_, ?_, by simp⟩
  · rw [headerNameCount_append, hz "content-type" (by decide) (by tauto)]
    simp [headerNameCount, List.filter_cons, e11, e12, e13, e14]
  · rw [headerNameCount_append, hz "date" (by decide) (by tauto)]
    simp [headerNameCount, List.filter_cons, e21, e22, e23, e24]
  · rw [headerNameCount_append, hz "connection" (by decide) (by tauto)]
    simp [headerNameCount, List.filter_cons, e31, e32, e33, e34]
  · rw [headerNameCount_append, hz "content-length" (by decide) (by tauto)]
    simp [headerNameCount, List.filter_cons, e41, e42, e43, e44]

/-- Witness for C2 at a table carrying an explicit content-type, a
cache-control header and an x-powered-by header. -/
theorem writeSimpleResponse_header_block_witness :
    headerNameCount (buildSimpleResponseHeaders newRequestObject
      (some [("content-type", "text/plain"), ("cache-control", "no-cache"),
             ("x-powered-by", "unit test")]) "ok" "today").1
      "content-type" = 1 ∧
    (buildSimpleResponseHeaders newRequestObject
      (some [("content-type", "text/plain"), ("cache-control", "no-cache"),
             ("x-powered-by", "unit test")]) "ok" "today").1.drop 4
      = [("cache-control", "no-cache"), ("x-powered-by", "unit test")] := by
  have h := writeSimpleResponse_header_block newRequestObject
    [("content-type", "text/plain"), ("cache-control", "no-cache"),
     ("x-powered-by", "unit test")] "ok" "today" (by decide)
  refine ⟨h.1, ?_⟩
  rw [h.2.2.2.2]
  decide

/-- C8: when the caller supplies no Connection header, the Connection
response header carries keep-alive or close according to canKeepAlive; and
an explicit Connection value differing from keep-alive under
case-insensitive comparison clears wantKeepAlive. -/
theorem writeSimpleResponse_connection (req : Request) (code : Int)
    (table : List (String × String)) (body now : String) :
    (lookupHeader (some table) "connection" = none →
      (buildSimpleResponseHeaders req (some table) body now).1.get? 2
        = some ("Connection",
            if req.canKeepAlive then "keep-alive" else "close")) ∧
    (∀ v, lookupHeader (some table) "connection" = some v →
      sameHeaderName v "keep-alive" = false →
      (writeSimpleResponse req code (some table) body now).req.wantKeepAlive
        = false) := by
  constructor
  · intro hnone
    simp [buildSimpleResponseHeaders, hnone]
  · intro v hv hci
    have h1 : (v == "Keep-Alive") = false := by
      rw [beq_eq_false_iff_ne]
      intro hcontra
      subst hcontra
      exact absurd hci (by decide)
    have h2 : (v == "keep-alive") = false := by
      rw [beq_eq_false_iff_ne]
      intro hcontra
      subst hcontra
      exact absurd hci (by decide)
    simp [writeSimpleResponse, buildSimpleResponseHeaders, hv, h1, h2]

/-- Witness for C8: a request with wantKeepAlive and an explicit
Connection value close gets wantKeepAlive cleared, and without an explicit
value the emitted Connection header follows canKeepAlive. -/
theorem writeSimpleResponse_connection_witness :
    (buildSimpleResponseHeaders
        { newRequestObject with wantKeepAlive := true }
        (some [("x-extra", "1")]) "ok" "today").1.get? 2
      = some ("Connection", "keep-alive") ∧
    (writeSimpleResponse { newRequestObject with wantKeepAlive := true }
        200 (some [("connection", "close")]) "ok" "today").req.wantKeepAlive
      = false := by
  constructor
  · have h := (writeSimpleResponse_connection
      { newRequestObject with wantKeepAlive := true } 200
      [("x-extra", "1")] "ok" "today").1 (by decide)
    rw [h]
    decide
  · exact (writeSimpleResponse_connection
      { newRequestObject with wantKeepAlive := true } 200
      [("connection", "close")] "ok" "today").2 "close" (by decide) (by decide)

/-- C9: for a HEAD request, writeSimpleResponse performs exactly one write,
carrying the status line and the header block, and writes no body bytes,
regardless of whether the request has ended. -/
theorem writeSimpleResponse_head_no_body (req : Request) (code : Int)
    (table : Option (List (String × String))) (body now : String)
    (hm : req.method = HttpMethod.HTTP_HEAD) :
    (writeSimpleResponse req code table body now).events
      = [Event.writeHeaders (writeSimpleResponse req code table body now).resp] ∧
    (writeSimpleResponse req code table body now).resp.status
      = statusString code ∧
    (writeSimpleResponse req code table body now).resp.headerList
      = (buildSimpleResponseHeaders req table body now).1 := by
  refine ⟨?_, ?_, ?_⟩
  · simp [writeSimpleResponse, hm]
  · simp [writeSimpleResponse]
  · simp [writeSimpleResponse]

/-- Witness for C9 at a HEAD request that has not ended: one header write
and no body write. -/
theorem writeSimpleResponse_head_no_body_witness :
    (writeSimpleResponse
      { newRequestObject with
          httpState := HttpState.COMPLETE
          method := HttpMethod.HTTP_HEAD }
      200 none "hello" "today").events
      = [Event.writeHeaders (writeSimpleResponse
          { newRequestObject with
              httpState := HttpState.COMPLETE
              method := HttpMethod.HTTP_HEAD }
          200 none "hello" "today").resp] :=
  (writeSimpleResponse_head_no_body
    { newRequestObject with
        httpState := HttpState.COMPLETE
        method := HttpMethod.HTTP_HEAD }
    200 none "hello" "today" rfl).1

/-- C10: a zero-size buffer while parsing headers disconnects the client,
with no response bytes written, no onRequestBegin, and no state change. -/
theorem parsingHeaders_eof_disconnect (client : Client) (req : Request)
    (errcode : Int) (o : Oracle)
    (hs : req.httpState = HttpState.PARSING_HEADERS) :
    (onClientDataReceived client req 0 errcode o).events
      = [Event.disconnect] ∧
    (onClientDataReceived client req 0 errcode o).result
      = ⟨0, true⟩ ∧
    (onClientDataReceived client req 0 errcode o).req = req ∧
    (onClientDataReceived client req 0 errcode o).client = client := by
  have hd : onClientDataReceived client req 0 errcode o
      = processClientDataWhenParsingHeaders client req 0 errcode o := by
    unfold onClientDataReceived
    rw [hs]
  rw [hd]
  unfold processClientDataWhenParsingHeaders
  simp

/-- Witness for C10 at a concrete client still parsing headers. -/
theorem parsingHeaders_eof_disconnect_witness :
    (onClientDataReceived baseClient
      { newRequestObject with httpState := HttpState.PARSING_HEADERS }
      0 0 (mkBodyOracle false false)).events = [Event.disconnect] :=
  (parsingHeaders_eof_disconnect baseClient
    { newRequestObject with httpState := HttpState.PARSING_HEADERS }
    0 (mkBodyOracle false false) rfl).1

/-- C3: addRequestToFreelist accepts exactly when the freelist is below its
limit; an accepted request sits at the head with httpState IN_FREELIST and
refcount one; the count never exceeds the limit; and on the zero-refcount
path a rejected request is destroyed. -/
theorem freelist_bounded (st : HttpServerState) (client : Client)
    (req : Request)
    (hw : req.httpState = HttpState.WAITING_FOR_REFERENCES)
    (hinv : st.freeRequestCount ≤ st.requestFreelistLimit) :
    ((addRequestToFreelist st req).1 = true ↔
      st.freeRequestCount < st.requestFreelistLimit) ∧
    ((addRequestToFreelist st req).1 = true →
      (addRequestToFreelist st req).2.freeRequests.head?
        = some { req with
            refcount := 1
            httpState := HttpState.IN_FREELIST }) ∧
    (addRequestToFreelist st req).2.freeRequestCount
      ≤ (addRequestToFreelist st req).2.requestFreelistLimit ∧
    (requestReachedZeroRefcount st client req).2.2
      = (if st.freeRequestCount < st.requestFreelistLimit
          then Disposition.addedToFreelist
          else Disposition.destroyed) := by
  by_cases hlt : st.freeRequestCount < st.requestFreelistLimit
  · refine ⟨?_, ?_, ?_, ?_⟩
    · simp [addRequestToFreelist, hlt]
    · intro _
      simp [addRequestToFreelist, hlt]
    · simp [addRequestToFreelist, hlt]
      omega
    · simp [requestReachedZeroRefcount, addRequestToFreelist, hlt]
  · refine ⟨?_, ?_, ?_, ?_⟩
    · simp [addRequestToFreelist, hlt]
    · intro hcontra
      rw [addRequestToFreelist, if_neg hlt] at hcontra
      simp at hcontra
    · simp [addRequestToFreelist, hlt]
      omega
    · simp [requestReachedZeroRefcount, addRequestToFreelist, hlt]

/-- Witness for C3 at a freelist holding 1 of limit 2: the request is
accepted at the head with refcount one and state IN_FREELIST, the bound is
kept, and the zero-refcount path recycles rather than destroys. -/
theorem freelist_bounded_witness :
    ((addRequestToFreelist ⟨[newRequestObject], 1, 2, 0⟩
      { newRequestObject with
          httpState := HttpState.WAITING_FOR_REFERENCES }).1 = true ↔
      (1 : Nat) < 2) ∧
    (addRequestToFreelist ⟨[newRequestObject], 1, 2, 0⟩
      { newRequestObject with
          httpState := HttpState.WAITING_FOR_REFERENCES }).2.freeRequestCount
      ≤ (addRequestToFreelist ⟨[newRequestObject], 1, 2, 0⟩
        { newRequestObject with
            httpState := HttpState.WAITING_FOR_REFERENCES
        }).2.requestFreelistLimit ∧
    (requestReachedZeroRefcount ⟨[newRequestObject], 1, 2, 0⟩ baseClient
      { newRequestObject with
          httpState := HttpState.WAITING_FOR_REFERENCES }).2.2
      = (if (1 : Nat) < 2
          then Disposition.addedToFreelist
          else Disposition.destroyed) := by
  have h := freelist_bounded ⟨[newRequestObject], 1, 2, 0⟩ baseClient
    { newRequestObject with
        httpState := HttpState.WAITING_FOR_REFERENCES }
    rfl (by decide)
  exact ⟨h.1, h.2.2.1, h.2.2.2⟩

/-- C7 evidence: checkoutRequestObject returns the freelist head when the
freelist is nonempty, a fresh object when allocation succeeds, and NULL
exactly when the freelist is empty and the allocation fails; on that very
input handleNextRequest does not drop the connection but dereferences the
NULL request pointer. -/
theorem checkout_null_dereference (st : HttpServerState) (allocOk : Bool) :
    (checkoutRequestObject st allocOk).2
      = (match st.freeRequests with
         | r :: _ => some r
         | [] => if allocOk then some newRequestObject else none) ∧
    handleNextRequest ⟨[], 0, 1024, 0⟩ baseClient false
      = HandleNextOutcome.nullPointerDereference := by
  constructor
  · unfold checkoutRequestObject
    rcases st.freeRequests with _ | ⟨r, rest⟩
    · cases allocOk <;> simp
    · simp
  · rfl

lemma ended_false_ne_waiting (req : Request) (h : req.ended = false) :
    req.httpState ≠ HttpState.WAITING_FOR_REFERENCES := by
  intro hc
  unfold Request.ended at h
  rw [hc] at h
  simp at h

lemma ended_of_httpState_eq {a b : Request} (h : a.httpState = b.httpState) :
    a.ended = b.ended := by
  unfold Request.ended
  rw [h]

lemma writeSimpleResponse_req_fields (req : Request) (code : Int)
    (headers : Option (List (String × String))) (body now : String) :
    (writeSimpleResponse req code headers body now).req.httpState
      = req.httpState ∧
    (writeSimpleResponse req code headers body now).req.responseBegun
      = true ∧
    (writeSimpleResponse req code headers body now).req.ended = req.ended := by
  have hS : (writeSimpleResponse req code headers body now).req.httpState
      = req.httpState := by
    simp only [writeSimpleResponse]
    split <;> rfl
  exact ⟨hS, rfl, ended_of_httpState_eq hS⟩

lemma deinitializeRequest_httpState (req : Request) :
    (deinitializeRequest req).httpState
      = HttpState.WAITING_FOR_REFERENCES := rfl

lemma endRequest_noop (client : Client) (req : Request) (now : String)
    (h : req.ended = true) :
    endRequest client req now = ⟨false, client, req, []⟩ := by
  unfold endRequest
  rw [if_pos h]

/-- Core behaviour of endRequest on a not-yet-ended request: it returns
true, leaves the request ended, and its trace is the default 500 response
writes (when no response had begun) followed by the request
de-initialization and the closing of the output channel. -/
lemma endRequest_run (client : Client) (req : Request) (now : String)
    (h1 : req.ended = false) :
    (endRequest client req now).returned = true ∧
    (endRequest client req now).req.ended = true ∧
    (∃ tail, (endRequest client req now).events
      = (if req.responseBegun = false
          then (writeSimpleResponse req 500 none
            DEFAULT_INTERNAL_SERVER_ERROR_RESPONSE now).events
          else [])
        ++ Event.deinitializeRequestEvt :: tail) := by
  have hne : req.httpState ≠ HttpState.WAITING_FOR_REFERENCES :=
    ended_false_ne_waiting req h1
  obtain ⟨hwS, hwB, hwE⟩ := writeSimpleResponse_req_fields req 500 none
    DEFAULT_INTERNAL_SERVER_ERROR_RESPONSE now
  have h1' := h1
  unfold Request.ended at h1'
  refine ⟨?_, ?_, ?_⟩
  · by_cases hrb : req.responseBegun = false <;>
      by_cases ha : client.outputEndAcked = true <;>
      by_cases hoe : client.outputEnded = false <;>
        simp [endRequest, h1, h1', hrb, ha, hoe, hne, hwS,
          deinitializeRequestAndAddToFreelist, doneWithCurrentRequest]
  · by_cases hrb : req.responseBegun = false <;>
      by_cases ha : client.outputEndAcked = true <;>
      by_cases hoe : client.outputEnded = false <;>
        simp [endRequest, h1, h1', hrb, ha, hoe, hne, hwS,
          deinitializeRequestAndAddToFreelist, doneWithCurrentRequest,
          Request.ended, deinitializeRequest]
  · by_cases hrb : req.responseBegun = false <;>
      by_cases ha : client.outputEndAcked = true <;>
      by_cases hoe : client.outputEnded = false <;>
        simp [endRequest, h1, h1', hrb, ha, hoe, hne, hwS,
          deinitializeRequestAndAddToFreelist, doneWithCurrentRequest]

/-- C4: for every client and request, ending a request twice is a no-op the
second time, with endRequest returning false; deinitializeRequest is
idempotent; and on a first call that finds the request not yet ended with
no response begun, the default 500 response is written before the request
is de-initialized. -/
theorem endRequest_idempotent (client : Client) (req : Request)
    (now now2 : String) :
    (endRequest (endRequest client req now).client
        (endRequest client req now).req now2).returned = false ∧
    (endRequest (endRequest client req now).client
        (endRequest client req now).req now2).client
      = (endRequest client req now).client ∧
    (endRequest (endRequest client req now).client
        (endRequest client req now).req now2).req
      = (endRequest client req now).req ∧
    (endRequest (endRequest client req now).client
        (endRequest client req now).req now2).events = [] ∧
    deinitializeRequest (deinitializeRequest req) = deinitializeRequest req ∧
    (req.ended = false → req.responseBegun = false →
      ∃ tail, (endRequest client req now).events
        = (writeSimpleResponse req 500 none
            DEFAULT_INTERNAL_SERVER_ERROR_RESPONSE now).events
          ++ Event.deinitializeRequestEvt :: tail) := by
  have hsecond : endRequest (endRequest client req now).client
      (endRequest client req now).req now2
      = ⟨false, (endRequest client req now).client,
         (endRequest client req now).req, []⟩ := by
    by_cases h1 : req.ended = true
    · rw [endRequest_noop client req now h1]
      exact endRequest_noop client req now2 h1
    · have h1' : req.ended = false := by
        simpa using h1
      exact endRequest_noop _ _ now2 (endRequest_run client req now h1').2.1
  refine ⟨?_, ?_, ?_, ?_, ?_, ?_⟩
  · rw [hsecond]
  · rw [hsecond]
  · rw [hsecond]
  · rw [hsecond]
  · simp [deinitializeRequest]
  · intro h1 h2
    have htail := (endRequest_run client req now h1).2.2
    rw [if_pos h2] at htail
    exact htail

/-- Witness for C4 at a COMPLETE request with no response begun: the second
endRequest returns false, deinitializeRequest is idempotent there, and the
first call de-initializes the request after its writes. -/
theorem endRequest_idempotent_witness :
    (endRequest
      (endRequest baseClient
        { newRequestObject with httpState := HttpState.COMPLETE }
        "D1").client
      (endRequest baseClient
        { newRequestObject with httpState := HttpState.COMPLETE }
        "D1").req "D2").returned = false ∧
    deinitializeRequest (deinitializeRequest
      { newRequestObject with httpState := HttpState.COMPLETE })
      = deinitializeRequest
        { newRequestObject with httpState := HttpState.COMPLETE } ∧
    Event.deinitializeRequestEvt
      ∈ (endRequest baseClient
        { newRequestObject with httpState := HttpState.COMPLETE }
        "D1").events := by
  have h := endRequest_idempotent baseClient
    { newRequestObject with httpState := HttpState.COMPLETE }
    "D1" "D2"
  obtain ⟨tail, htail⟩ := h.2.2.2.2.2 rfl rfl
  refine ⟨h.1, h.2.2.2.2.1, ?_⟩
  rw [htail]
  exact List.mem_append_right _ (List.mem_cons_self _ _)

lemma writeSimpleResponse_events_head (req : Request) (code : Int)
    (headers : Option (List (String × String))) (body now : String) :
    ∃ ws, (writeSimpleResponse req code headers body now).events
      = Event.writeHeaders (writeSimpleResponse req code headers body now).resp
          :: ws := by
  simp only [writeSimpleResponse]
  split
  · exact ⟨[Event.writeBody body], rfl⟩
  · exact ⟨[], rfl⟩

/-- Behaviour of endWithErrorResponse on a not-yet-ended request: the trace
opens with the header write of the synthesized response, the request is
de-initialized and ends, the response carries the requested code, and its
header block contains Connection close and the no-cache Cache-Control. -/
lemma endWithErrorResponse_spec (client : Client) (req : Request)
    (code : Int) (body now : String)
    (h1 : req.ended = false) :
    (∃ tail, (endWithErrorResponse client req code body now).events
      = Event.writeHeaders (writeSimpleResponse req code
          (some [("connection", "close"),
                 ("cache-control", "no-cache, no-store, must-revalidate")])
          body now).resp :: tail) ∧
    Event.deinitializeRequestEvt
      ∈ (endWithErrorResponse client req code body now).events ∧
    (endWithErrorResponse client req code body now).req.ended = true ∧
    (writeSimpleResponse req code
        (some [("connection", "close"),
               ("cache-control", "no-cache, no-store, must-revalidate")])
        body now).resp.code = code ∧
    ("Connection", "close") ∈ (writeSimpleResponse req code
        (some [("connection", "close"),
               ("cache-control", "no-cache, no-store, must-revalidate")])
        body now).resp.headerList ∧
    ("cache-control", "no-cache, no-store, must-revalidate")
      ∈ (writeSimpleResponse req code
        (some [("connection", "close"),
               ("cache-control", "no-cache, no-store, must-revalidate")])
        body now).resp.headerList := by
  obtain ⟨hwS, hwB, hwE⟩ := writeSimpleResponse_req_fields req code
    (some [("connection", "close"),
           ("cache-control", "no-cache, no-store, must-revalidate")])
    body now
  have hwend : (writeSimpleResponse req code
      (some [("connection", "close"),
             ("cache-control", "no-cache, no-store, must-revalidate")])
      body now).req.ended = false := by
    rw [hwE]
    exact h1
  obtain ⟨hret, hend, htail⟩ := endRequest_run client
    (writeSimpleResponse req code
      (some [("connection", "close"),
             ("cache-control", "no-cache, no-store, must-revalidate")])
      body now).req now hwend
  obtain ⟨ws, hws⟩ := writeSimpleResponse_events_head req code
    (some [("connection", "close"),
           ("cache-control", "no-cache, no-store, must-revalidate")])
    body now
  obtain ⟨tail2, htail2⟩ := htail
  refine ⟨?_, ?_, ?_, rfl, ?_, ?_⟩
  · refine ⟨ws ++ (endRequest client
      (writeSimpleResponse req code
        (some [("connection", "close"),
               ("cache-control", "no-cache, no-store, must-revalidate")])
        body now).req now).events, ?_⟩
    simp only [endWithErrorResponse, hws]
    simp
  · simp only [endWithErrorResponse]
    rw [htail2]
    simp
  · simp only [endWithErrorResponse]
    exact hend
  · simp [writeSimpleResponse, buildSimpleResponseHeaders, lookupHeader]
  · simp [writeSimpleResponse, buildSimpleResponseHeaders, lookupHeader]

/-- C6: a header-parse outcome of ERROR first switches the request to
COMPLETE, then writes a 505 response when the parse error is
HTTP_VERSION_NOT_SUPPORTED and a 400 response otherwise; the response
headers include Connection close and the no-cache Cache-Control, and the
request is then ended. -/
theorem parse_error_response (client : Client) (req : Request)
    (bufSize : Nat) (errcode : Int) (o : Oracle)
    (hs : req.httpState = HttpState.PARSING_HEADERS)
    (hbuf : 0 < bufSize)
    (herr : o.parsedReq.httpState = HttpState.ERROR) :
    ∃ resp tail,
      (onClientDataReceived client req bufSize errcode o).events
        = Event.setHttpState HttpState.COMPLETE
            :: Event.writeHeaders resp :: tail ∧
      resp.code = (if o.parsedReq.parseError = HTTP_VERSION_NOT_SUPPORTED
                    then (505 : Int) else 400) ∧
      ("Connection", "close") ∈ resp.headerList ∧
      ("cache-control", "no-cache, no-store, must-revalidate")
        ∈ resp.headerList ∧
      Event.deinitializeRequestEvt
        ∈ (onClientDataReceived client req bufSize errcode o).events ∧
      (onClientDataReceived client req bufSize errcode o).req.ended
        = true := by
  have hd : onClientDataReceived client req bufSize errcode o
      = processClientDataWhenParsingHeaders client req bufSize errcode o := by
    unfold onClientDataReceived
    rw [hs]
  rw [hd]
  by_cases hpe : o.parsedReq.parseError = HTTP_VERSION_NOT_SUPPORTED
  · have hstep : processClientDataWhenParsingHeaders client req bufSize
        errcode o
        = ⟨(endWithErrorResponse client
              { o.parsedReq with
                  hasHeaderParser := false
                  httpState := HttpState.COMPLETE }
              505 "HTTP version not supported\n" o.now).client,
           (endWithErrorResponse client
              { o.parsedReq with
                  hasHeaderParser := false
                  httpState := HttpState.COMPLETE }
              505 "HTTP version not supported\n" o.now).req,
           Event.setHttpState HttpState.COMPLETE
             :: (endWithErrorResponse client
              { o.parsedReq with
                  hasHeaderParser := false
                  httpState := HttpState.COMPLETE }
              505 "HTTP version not supported\n" o.now).events,
           ⟨0, true⟩⟩ := by
      simp [processClientDataWhenParsingHeaders, hbuf, herr, hpe]
    rw [hstep]
    obtain ⟨⟨tail1, htail1⟩, hmem, hend, hcode, hconn, hcache⟩ :=
      endWithErrorResponse_spec client
        { o.parsedReq with
            hasHeaderParser := false
            httpState := HttpState.COMPLETE }
        505 "HTTP version not supported\n" o.now rfl
    refine ⟨_, tail1, ?_, ?_, hconn, hcache, ?_, hend⟩
    · show Event.setHttpState HttpState.COMPLETE :: _ = _
      rw [htail1]
    · rw [if_pos hpe]
      exact hcode
    · exact List.mem_cons_of_mem _ hmem
  · have hstep : processClientDataWhenParsingHeaders client req bufSize
        errcode o
        = ⟨(endWithErrorResponse client
              { o.parsedReq with
                  hasHeaderParser := false
                  httpState := HttpState.COMPLETE }
              400 (getErrorDesc o.parsedReq.parseError) o.now).client,
           (endWithErrorResponse client
              { o.parsedReq with
                  hasHeaderParser := false
                  httpState := HttpState.COMPLETE }
              400 (getErrorDesc o.parsedReq.parseError) o.now).req,
           Event.setHttpState HttpState.COMPLETE
             :: (endWithErrorResponse client
              { o.parsedReq with
                  hasHeaderParser := false
                  httpState := HttpState.COMPLETE }
              400 (getErrorDesc o.parsedReq.parseError) o.now).events,
           ⟨0, true⟩⟩ := by
      simp [processClientDataWhenParsingHeaders, hbuf, herr, hpe,
        endAsBadRequest]
    rw [hstep]
    obtain ⟨⟨tail1, htail1⟩, hmem, hend, hcode, hconn, hcache⟩ :=
      endWithErrorResponse_spec client
        { o.parsedReq with
            hasHeaderParser := false
            httpState := HttpState.COMPLETE }
        400 (getErrorDesc o.parsedReq.parseError) o.now rfl
    refine ⟨_, tail1, ?_, ?_, hconn, hcache, ?_, hend⟩
    · show Event.setHttpState HttpState.COMPLETE :: _ = _
      rw [htail1]
    · rw [if_neg hpe]
      exact hcode
    · exact List.mem_cons_of_mem _ hmem

/-- Witness for C6 at a concrete request whose parse outcome is an
unsupported-version error: the trace opens with the switch to COMPLETE, the
request is de-initialized, and it ends. -/
theorem parse_error_response_witness :
    (onClientDataReceived baseClient
      { newRequestObject with httpState := HttpState.PARSING_HEADERS }
      7 0
      { mkBodyOracle false false with
          parsedReq := { newRequestObject with
            httpState := HttpState.ERROR
            parseError := HTTP_VERSION_NOT_SUPPORTED } }).events.head?
      = some (Event.setHttpState HttpState.COMPLETE) ∧
    Event.deinitializeRequestEvt
      ∈ (onClientDataReceived baseClient
        { newRequestObject with httpState := HttpState.PARSING_HEADERS }
        7 0
        { mkBodyOracle false false with
            parsedReq := { newRequestObject with
              httpState := HttpState.ERROR
              parseError := HTTP_VERSION_NOT_SUPPORTED } }).events ∧
    (onClientDataReceived baseClient
      { newRequestObject with httpState := HttpState.PARSING_HEADERS }
      7 0
      { mkBodyOracle false false with
          parsedReq := { newRequestObject with
            httpState := HttpState.ERROR
            parseError := HTTP_VERSION_NOT_SUPPORTED } }).req.ended
      = true := by
  obtain ⟨resp, tail, hev, hcode, hconn, hcache, hdein, hend⟩ :=
    parse_error_response baseClient
      { newRequestObject with httpState := HttpState.PARSING_HEADERS }
      7 0
      { mkBodyOracle false false with
          parsedReq := { newRequestObject with
            httpState := HttpState.ERROR
            parseError := HTTP_VERSION_NOT_SUPPORTED } }
      rfl (by decide) rfl
  refine ⟨?_, hdein, hend⟩
  rw [hev]
  rfl

end ServerKit
